import Mathlib

/-!
Shallow embedding of `src/moto/comprehend/models.py`: the `EntityRecognizer`
record, the `ComprehendBackend` registry and its operations (create, describe,
list, stop-training, delete, tag/untag/list-tags).  Python dictionaries are
modelled as association lists with Python-dict semantics (unique keys in every
reachable state; assignment replaces in place, `pop` removes the entry).
Mutation is modelled by explicit state passing; `raise ResourceNotFound`
becomes `Except.error`.
-/

set_option autoImplicit false

namespace MotoComprehend

/-- Python `dict` lookup `d[k]` / `d.get(k)` on an association list:
the value of the first entry whose key equals `k`. -/
def dictLookup {α : Type} (k : String) : List (String × α) → Option α
  | [] => none
  | p :: rest => if p.1 = k then some p.2 else dictLookup k rest

/-- Python `dict` assignment `d[k] = v`: replace the entry in place when the
key is present, otherwise append a new entry at the end. -/
def dictInsert {α : Type} (k : String) (v : α) : List (String × α) → List (String × α)
  | [] => [(k, v)]
  | p :: rest => if p.1 = k then (k, v) :: rest else p :: dictInsert k v rest

/-- Python `d.pop(k, None)`: remove the entry for `k` when present, silently
do nothing otherwise. -/
def dictPop {α : Type} (k : String) : List (String × α) → List (String × α)
  | [] => []
  | p :: rest => if p.1 = k then dictPop k rest else p :: dictPop k rest

/-- Python `d.values()`, in insertion order. -/
def dictValues {α : Type} (d : List (String × α)) : List α :=
  d.map Prod.snd

/-- One tag, the `{"Key": ..., "Value": ...}` mapping of the Python code. -/
structure Tag where
  Key : String
  Value : String
  deriving DecidableEq

/-- Modelled from the spec: the tagging collaborator
(`moto.utilities.tagging_service.TaggingService`) is consumed by this module
but its source is not under `src/`.  Per the spec it is an external,
service-agnostic component managing key/value tag sets attached to resource
ARNs, exposing `tag_resource(arn, tags)` (registers the supplied tags against
the ARN), `untag_resource_using_names(arn, tag_keys)` (removes exactly the
named keys and leaves the others intact) and `list_tags_for_resource(arn)`
(returns the tag list held for the ARN).  We model it as a map from ARN to
tag list; registering tags stores the supplied list as the ARN's tag set. -/
structure TaggingService where
  tags : List (String × List Tag)
  deriving DecidableEq

/-- Modelled from the spec: `tag_resource(arn, tags)` registers the supplied
tags against the ARN. -/
def TaggingService.tag_resource (ts : TaggingService) (resource_arn : String)
    (tags : List Tag) : TaggingService :=
  { tags := dictInsert resource_arn tags ts.tags }

/-- Modelled from the spec: `list_tags_for_resource(arn)` returns the tag list
held for the ARN (empty when none were ever registered). -/
def TaggingService.list_tags_for_resource (ts : TaggingService)
    (resource_arn : String) : List Tag :=
  (dictLookup resource_arn ts.tags).getD []

/-- Modelled from the spec: `untag_resource_using_names(arn, tag_keys)`
removes exactly the tags whose key is among `tag_keys` and leaves the others
intact. -/
def TaggingService.untag_resource_using_names (ts : TaggingService)
    (resource_arn : String) (tag_keys : List String) : TaggingService :=
  match dictLookup resource_arn ts.tags with
  | none => ts
  | some cur =>
      { tags := dictInsert resource_arn
          (cur.filter (fun t => !(tag_keys.contains t.Key))) ts.tags }

/-- The `EntityRecognizer` record of `models.py`.  `input_data_config` and
`vpc_config` are uninterpreted payloads the code never inspects (only stores and
echoes back); we model them as strings. -/
structure EntityRecognizer where
  name : String
  arn : String
  language_code : String
  input_data_config : String
  data_access_role_arn : String
  version_name : String
  volume_kms_key_id : String
  vpc_config : String
  model_kms_key_id : String
  model_policy : String
  status : String
  deriving DecidableEq

/-- `EntityRecognizer.__init__`: derives the ARN from region, account and name,
appending the version segment when `version_name` is truthy (non-empty), and
initialises `status` to `TRAINED`. -/
def EntityRecognizer.make (region_name account_id language_code
    input_data_config data_access_role_arn version_name recognizer_name
    volume_kms_key_id vpc_config model_kms_key_id model_policy : String) :
    EntityRecognizer :=
  let base := "arn:aws:comprehend:" ++ region_name ++ ":" ++ account_id ++
    ":entity-recognizer/" ++ recognizer_name
  { name := recognizer_name
    arn := if version_name ≠ "" then base ++ "/version/" ++ version_name else base
    language_code := language_code
    input_data_config := input_data_config
    data_access_role_arn := data_access_role_arn
    version_name := version_name
    volume_kms_key_id := volume_kms_key_id
    vpc_config := vpc_config
    model_kms_key_id := model_kms_key_id
    model_policy := model_policy
    status := "TRAINED" }

/-- The single error kind of `.exceptions`: `ResourceNotFound`. -/
inductive ComprehendError where
  | resourceNotFound
  deriving DecidableEq

/-- `ComprehendBackend` state: region/account identity, the recognizer
registry keyed by ARN, and the tagging collaborator. -/
structure ComprehendBackend where
  region_name : String
  account_id : String
  recognizers : List (String × EntityRecognizer)
  tagger : TaggingService
  deriving DecidableEq

/-- `ComprehendBackend.list_entity_recognizers`: with a `RecognizerName`
filter key, the registry values whose `name` equals the filter value;
otherwise all registry values.  Other filter keys are ignored. -/
def ComprehendBackend.list_entity_recognizers (b : ComprehendBackend)
    (filt : List (String × String)) : List EntityRecognizer :=
  match dictLookup "RecognizerName" filt with
  | some x => (dictValues b.recognizers).filter (fun entity => entity.name == x)
  | none => dictValues b.recognizers

/-- `ComprehendBackend.create_entity_recognizer`: construct the recognizer,
insert it keyed by its ARN, register the tags, return the ARN (paired with
the updated state). -/
def ComprehendBackend.create_entity_recognizer (b : ComprehendBackend)
    (recognizer_name version_name data_access_role_arn : String)
    (tags : List Tag)
    (input_data_config language_code volume_kms_key_id vpc_config
      model_kms_key_id model_policy : String) :
    String × ComprehendBackend :=
  let recognizer := EntityRecognizer.make b.region_name b.account_id
    language_code input_data_config data_access_role_arn version_name
    recognizer_name volume_kms_key_id vpc_config model_kms_key_id model_policy
  (recognizer.arn,
    { b with
      recognizers := dictInsert recognizer.arn recognizer b.recognizers
      tagger := b.tagger.tag_resource recognizer.arn tags })

/-- `ComprehendBackend.describe_entity_recognizer`: raise `ResourceNotFound`
when the ARN is not a registry key, otherwise return the entry. -/
def ComprehendBackend.describe_entity_recognizer (b : ComprehendBackend)
    (entity_recognizer_arn : String) : Except ComprehendError EntityRecognizer :=
  match dictLookup entity_recognizer_arn b.recognizers with
  | none => Except.error ComprehendError.resourceNotFound
  | some recognizer => Except.ok recognizer

/-- `ComprehendBackend.stop_training_entity_recognizer`: look up via
`describe` (propagating its failure); set `status` to `STOP_REQUESTED` when
it is exactly `TRAINING`, otherwise leave the state unchanged. -/
def ComprehendBackend.stop_training_entity_recognizer (b : ComprehendBackend)
    (entity_recognizer_arn : String) : Except ComprehendError ComprehendBackend :=
  match b.describe_entity_recognizer entity_recognizer_arn with
  | Except.error e => Except.error e
  | Except.ok recognizer =>
      if recognizer.status = "TRAINING" then
        Except.ok { b with
          recognizers := dictInsert entity_recognizer_arn
            { recognizer with status := "STOP_REQUESTED" } b.recognizers }
      else
        Except.ok b

/-- `ComprehendBackend.list_tags_for_resource`: delegate to the tagger. -/
def ComprehendBackend.list_tags_for_resource (b : ComprehendBackend)
    (resource_arn : String) : List Tag :=
  b.tagger.list_tags_for_resource resource_arn

/-- `ComprehendBackend.delete_entity_recognizer`: `pop` the registry entry,
ignoring an absent key. -/
def ComprehendBackend.delete_entity_recognizer (b : ComprehendBackend)
    (entity_recognizer_arn : String) : ComprehendBackend :=
  { b with recognizers := dictPop entity_recognizer_arn b.recognizers }

/-- `ComprehendBackend.tag_resource`: delegate to the tagger. -/
def ComprehendBackend.tag_resource (b : ComprehendBackend)
    (resource_arn : String) (tags : List Tag) : ComprehendBackend :=
  { b with tagger := b.tagger.tag_resource resource_arn tags }

/-- `ComprehendBackend.untag_resource`: delegate to the tagger. -/
def ComprehendBackend.untag_resource (b : ComprehendBackend)
    (resource_arn : String) (tag_keys : List String) : ComprehendBackend :=
  { b with tagger := b.tagger.untag_resource_using_names resource_arn tag_keys }

/-- The public operations of the backend, as data, to quantify over
"any subsequent operation". -/
inductive Op where
  | create (recognizer_name version_name data_access_role_arn : String)
      (tags : List Tag)
      (input_data_config language_code volume_kms_key_id vpc_config
        model_kms_key_id model_policy : String)
  | describe (arn : String)
  | listRecognizers (filt : List (String × String))
  | stopTraining (arn : String)
  | delete (arn : String)
  | tag (arn : String) (tags : List Tag)
  | untag (arn : String) (tag_keys : List String)
  | listTags (arn : String)

/-- State after running one operation.  Read-only operations leave the state
unchanged; a raised `ResourceNotFound` propagates, leaving the state as it
was. -/
def applyOp (b : ComprehendBackend) : Op → ComprehendBackend
  | Op.create n v d t i l vol vpc mk mp =>
      (b.create_entity_recognizer n v d t i l vol vpc mk mp).2
  | Op.describe _ => b
  | Op.listRecognizers _ => b
  | Op.stopTraining a =>
      match b.stop_training_entity_recognizer a with
      | Except.ok b2 => b2
      | Except.error _ => b
  | Op.delete a => b.delete_entity_recognizer a
  | Op.tag a t => b.tag_resource a t
  | Op.untag a k => b.untag_resource a k
  | Op.listTags _ => b

/-! Association-list (Python dict) lemmas. -/

theorem dictLookup_dictInsert {α : Type} (k a : String) (v : α)
    (d : List (String × α)) :
    dictLookup k (dictInsert a v d) = if a = k then some v else dictLookup k d := by
  induction d with
  | nil => by_cases h : a = k <;> simp [dictLookup, dictInsert, h]
  | cons p rest ih =>
      by_cases h : a = k
      · subst h
        by_cases hp : p.1 = a <;> simp [dictLookup, dictInsert, hp, ih]
      · by_cases hp : p.1 = a
        · have hpk : ¬ p.1 = k := fun hc => h (hp.symm.trans hc)
          simp [dictLookup, dictInsert, hp, hpk, h]
        · have hka : ¬ k = a := fun hc => h hc.symm
          by_cases hpk : p.1 = k <;>
            simp [dictLookup, dictInsert, hp, hpk, h, hka, ih]

theorem dictLookup_dictPop {α : Type} (k a : String) (d : List (String × α)) :
    dictLookup k (dictPop a d) = if a = k then none else dictLookup k d := by
  induction d with
  | nil => by_cases h : a = k <;> simp [dictLookup, dictPop, h]
  | cons p rest ih =>
      by_cases h : a = k
      · subst h
        by_cases hp : p.1 = a <;> simp [dictLookup, dictPop, hp, ih]
      · by_cases hp : p.1 = a
        · have hpk : ¬ p.1 = k := fun hc => h (hp.symm.trans hc)
          simp [dictLookup, dictPop, hp, hpk, h, ih]
        · have hka : ¬ k = a := fun hc => h hc.symm
          by_cases hpk : p.1 = k <;>
            simp [dictLookup, dictPop, hp, hpk, h, hka, ih]

theorem dictLookup_eq_none_iff {α : Type} (k : String) (d : List (String × α)) :
    dictLookup k d = none ↔ ∀ p ∈ d, p.1 ≠ k := by
  induction d with
  | nil => simp [dictLookup]
  | cons p rest ih =>
      by_cases h : p.1 = k <;> simp [dictLookup, h, ih]

theorem dictPop_of_lookup_none {α : Type} (k : String) (d : List (String × α))
    (h : dictLookup k d = none) : dictPop k d = d := by
  induction d with
  | nil => simp [dictPop]
  | cons p rest ih =>
      rw [dictLookup_eq_none_iff] at h
      have hp : p.1 ≠ k := h p (List.mem_cons_self p rest)
      rw [dictPop, if_neg hp, ih ((dictLookup_eq_none_iff k rest).mpr
        (fun q hq => h q (List.mem_cons_of_mem p hq)))]

theorem dictPop_dictPop {α : Type} (k : String) (d : List (String × α)) :
    dictPop k (dictPop k d) = dictPop k d := by
  induction d with
  | nil => simp [dictPop]
  | cons p rest ih =>
      by_cases hp : p.1 = k <;> simp [dictPop, hp, ih]

theorem mem_keys_dictInsert {α : Type} (x k : String) (v : α)
    (d : List (String × α)) :
    x ∈ (dictInsert k v d).map Prod.fst ↔ x = k ∨ x ∈ d.map Prod.fst := by
  induction d with
  | nil => simp [dictInsert]
  | cons p rest ih =>
      by_cases hp : p.1 = k
      · rw [dictInsert, if_pos hp]
        simp [hp]
      · rw [dictInsert, if_neg hp]
        simp [ih]
        all_goals tauto

theorem nodup_keys_dictInsert {α : Type} (k : String) (v : α)
    (d : List (String × α)) (h : (d.map Prod.fst).Nodup) :
    ((dictInsert k v d).map Prod.fst).Nodup := by
  induction d with
  | nil => simp [dictInsert]
  | cons p rest ih =>
      simp only [List.map_cons, List.nodup_cons] at h
      by_cases hp : p.1 = k
      · rw [dictInsert, if_pos hp]
        simp only [List.map_cons, List.nodup_cons]
        exact ⟨hp ▸ h.1, h.2⟩
      · rw [dictInsert, if_neg hp]
        simp only [List.map_cons, List.nodup_cons]
        refine ⟨?_, ih h.2⟩
        rw [mem_keys_dictInsert]
        rintro (hc | hc)
        · exact hp hc
        · exact h.1 hc

theorem countP_eq_zero_of_not_mem_keys {α : Type} (k : String)
    (d : List (String × α)) (h : k ∉ d.map Prod.fst) :
    d.countP (fun p => p.1 == k) = 0 := by
  induction d with
  | nil => simp
  | cons p rest ih =>
      simp only [List.map_cons, List.mem_cons] at h
      push_neg at h
      rw [List.countP_cons, ih h.2]
      simp only [beq_iff_eq]
      rw [if_neg (fun hc => h.1 hc.symm)]

theorem countP_dictInsert_self {α : Type} (k : String) (v : α)
    (d : List (String × α)) (h : (d.map Prod.fst).Nodup) :
    (dictInsert k v d).countP (fun p => p.1 == k) = 1 := by
  induction d with
  | nil => simp [dictInsert, List.countP_cons]
  | cons p rest ih =>
      simp only [List.map_cons, List.nodup_cons] at h
      by_cases hp : p.1 = k
      · rw [dictInsert, if_pos hp, List.countP_cons,
          countP_eq_zero_of_not_mem_keys k rest (hp ▸ h.1)]
        simp
      · rw [dictInsert, if_neg hp, List.countP_cons, ih h.2]
        simp only [beq_iff_eq]
        rw [if_neg hp]

/-- Normal form of `stop_training_entity_recognizer` as a single match on the
registry lookup. -/
theorem stop_training_eq (b : ComprehendBackend) (a : String) :
    b.stop_training_entity_recognizer a =
      match dictLookup a b.recognizers with
      | none => Except.error ComprehendError.resourceNotFound
      | some r =>
          Except.ok (if r.status = "TRAINING" then
            { b with recognizers :=
                dictInsert a { r with status := "STOP_REQUESTED" } b.recognizers }
          else b) := by
  dsimp [ComprehendBackend.stop_training_entity_recognizer,
    ComprehendBackend.describe_entity_recognizer]
  cases dictLookup a b.recognizers with
  | none => rfl
  | some r => by_cases h : r.status = "TRAINING" <;> simp [h]

/-- Every registry entry is keyed by its own ARN.  This holds in every
reachable backend state, since `create` inserts each recognizer under its
own `arn` and no other operation introduces entries. -/
def arnConsistent (b : ComprehendBackend) : Prop :=
  ∀ k r, dictLookup k b.recognizers = some r → r.arn = k

/-! Concrete fixtures for witness instances. -/

def sampleRecognizer : EntityRecognizer :=
  EntityRecognizer.make "us-east-1" "123456789012" "en" "icfg" "role" "v1"
    "rec1" "kms" "vpcc" "mkms" "policy"

def sampleArn : String := sampleRecognizer.arn

def sampleBackend : ComprehendBackend :=
  { region_name := "us-east-1"
    account_id := "123456789012"
    recognizers := [(sampleArn, sampleRecognizer)]
    tagger := { tags := [] } }

def emptyBackend : ComprehendBackend :=
  { region_name := "us-east-1"
    account_id := "123456789012"
    recognizers := []
    tagger := { tags := [] } }

def trainRecognizer : EntityRecognizer :=
  { sampleRecognizer with status := "TRAINING" }

def trainBackend : ComprehendBackend :=
  { emptyBackend with recognizers := [(sampleArn, trainRecognizer)] }

/-- C1: for every backend state and every tuple of creation inputs,
`describe_entity_recognizer` on the ARN returned by
`create_entity_recognizer` succeeds and returns a record whose fields equal
the corresponding inputs and whose status is `TRAINED`. -/
theorem create_describe_returns_inputs (b : ComprehendBackend)
    (recognizer_name version_name data_access_role_arn : String)
    (tags : List Tag)
    (input_data_config language_code volume_kms_key_id vpc_config
      model_kms_key_id model_policy : String) :
    ((b.create_entity_recognizer recognizer_name version_name
        data_access_role_arn tags input_data_config language_code
        volume_kms_key_id vpc_config model_kms_key_id
        model_policy).2).describe_entity_recognizer
      ((b.create_entity_recognizer recognizer_name version_name
        data_access_role_arn tags input_data_config language_code
        volume_kms_key_id vpc_config model_kms_key_id model_policy).1) =
    Except.ok
      { name := recognizer_name
        arn := (b.create_entity_recognizer recognizer_name version_name
          data_access_role_arn tags input_data_config language_code
          volume_kms_key_id vpc_config model_kms_key_id model_policy).1
        language_code := language_code
        input_data_config := input_data_config
        data_access_role_arn := data_access_role_arn
        version_name := version_name
        volume_kms_key_id := volume_kms_key_id
        vpc_config := vpc_config
        model_kms_key_id := model_kms_key_id
        model_policy := model_policy
        status := "TRAINED" } := by
  dsimp [ComprehendBackend.create_entity_recognizer,
    ComprehendBackend.describe_entity_recognizer]
  rw [dictLookup_dictInsert, if_pos rfl]
  rfl

/-- C2: the `arn` field is derived at construction as
`arn:aws:comprehend:{region}:{account}:entity-recognizer/{name}`, with
`/version/{version_name}` appended exactly when the version name is
non-empty; every operation preserves the invariant that each registry entry
is keyed by its own ARN, and under that invariant no subsequent operation
ever changes the `arn` field of an entry that survives it. -/
theorem arn_derivation_and_immutability :
    (∀ region_name account_id language_code input_data_config
        data_access_role_arn version_name recognizer_name volume_kms_key_id
        vpc_config model_kms_key_id model_policy : String,
      (EntityRecognizer.make region_name account_id language_code
          input_data_config data_access_role_arn version_name recognizer_name
          volume_kms_key_id vpc_config model_kms_key_id model_policy).arn =
        if version_name ≠ "" then
          "arn:aws:comprehend:" ++ region_name ++ ":" ++ account_id ++
            ":entity-recognizer/" ++ recognizer_name ++ "/version/" ++
            version_name
        else
          "arn:aws:comprehend:" ++ region_name ++ ":" ++ account_id ++
            ":entity-recognizer/" ++ recognizer_name) ∧
    (∀ b op, arnConsistent b → arnConsistent (applyOp b op)) ∧
    (∀ b op k r0 r, arnConsistent b →
      dictLookup k b.recognizers = some r0 →
      dictLookup k (applyOp b op).recognizers = some r →
      r.arn = r0.arn) := by
  have hpres : ∀ b op, arnConsistent b → arnConsistent (applyOp b op) := by
    intro b op hc
    cases op with
    | create n v d t i l vol vpc mk mp =>
        intro k r hl
        dsimp [applyOp, ComprehendBackend.create_entity_recognizer] at hl
        rw [dictLookup_dictInsert] at hl
        split at hl
        next heq => cases hl; exact heq
        next => exact hc k r hl
    | describe a => exact hc
    | listRecognizers f => exact hc
    | listTags a => exact hc
    | tag a t => intro k r hl; exact hc k r hl
    | untag a ks => intro k r hl; exact hc k r hl
    | delete a =>
        intro k r hl
        dsimp [applyOp, ComprehendBackend.delete_entity_recognizer] at hl
        rw [dictLookup_dictPop] at hl
        split at hl
        next => cases hl
        next => exact hc k r hl
    | stopTraining a =>
        intro k r hl
        cases hsl : dictLookup a b.recognizers with
        | none =>
            simp only [applyOp, stop_training_eq, hsl] at hl
            exact hc k r hl
        | some r2 =>
            by_cases hst : r2.status = "TRAINING"
            · simp only [applyOp, stop_training_eq, hsl, if_pos hst] at hl
              rw [dictLookup_dictInsert] at hl
              split at hl
              next heq => cases hl; exact (hc a r2 hsl) ▸ heq
              next => exact hc k r hl
            · simp only [applyOp, stop_training_eq, hsl, if_neg hst] at hl
              exact hc k r hl
  refine ⟨?_, hpres,
    fun b op k r0 r hc h0 h1 => ((hpres b op hc) k r h1).trans (hc k r0 h0).symm⟩
  intro region_name account_id language_code input_data_config
    data_access_role_arn version_name recognizer_name volume_kms_key_id
    vpc_config model_kms_key_id model_policy
  rfl

/-- Witness for C2 at concrete inputs: the derived ARN of a sample
recognizer, and arn-preservation across a stop-training call on a sample
one-entry backend. -/
theorem arn_derivation_and_immutability_witness :
    sampleRecognizer.arn =
      "arn:aws:comprehend:us-east-1:123456789012:entity-recognizer/rec1/version/v1" ∧
    sampleRecognizer.arn = sampleRecognizer.arn := by
  constructor
  · have h := arn_derivation_and_immutability.1 "us-east-1" "123456789012" "en"
      "icfg" "role" "v1" "rec1" "kms" "vpcc" "mkms" "policy"
    rw [show sampleRecognizer.arn =
      (EntityRecognizer.make "us-east-1" "123456789012" "en" "icfg" "role" "v1"
        "rec1" "kms" "vpcc" "mkms" "policy").arn from rfl, h]
    decide
  · have hcons : arnConsistent sampleBackend := by
      intro k r hl
      simp only [sampleBackend, dictLookup] at hl
      split at hl
      next heq => cases hl; exact heq
      next => cases hl
    have hlook : dictLookup sampleArn sampleBackend.recognizers =
        some sampleRecognizer := by
      simp [sampleBackend, dictLookup]
    have hafter : dictLookup sampleArn
        (applyOp sampleBackend (Op.stopTraining sampleArn)).recognizers =
        some sampleRecognizer := by
      have hstop : applyOp sampleBackend (Op.stopTraining sampleArn) =
          sampleBackend := by
        simp [applyOp, stop_training_eq, hlook, sampleRecognizer,
          EntityRecognizer.make]
      rw [hstop]
      exact hlook
    exact arn_derivation_and_immutability.2.2 sampleBackend
      (Op.stopTraining sampleArn) sampleArn sampleRecognizer sampleRecognizer
      hcons hlook hafter

/-- C3: `describe_entity_recognizer` fails with `ResourceNotFound` exactly
when the ARN is not a registry key; `stop_training_entity_recognizer` fails
under precisely the same condition (it propagates describe's failure); in
both failure cases the backend state is unchanged. -/
theorem notfound_iff_absent :
    (∀ (b : ComprehendBackend) (arn : String),
      b.describe_entity_recognizer arn =
          Except.error ComprehendError.resourceNotFound ↔
        dictLookup arn b.recognizers = none) ∧
    (∀ (b : ComprehendBackend) (arn : String),
      b.stop_training_entity_recognizer arn =
          Except.error ComprehendError.resourceNotFound ↔
        dictLookup arn b.recognizers = none) ∧
    (∀ (b : ComprehendBackend) (arn : String), applyOp b (Op.describe arn) = b) ∧
    (∀ (b : ComprehendBackend) (arn : String),
      dictLookup arn b.recognizers = none →
      applyOp b (Op.stopTraining arn) = b) := by
  refine ⟨?_, ?_, fun b arn => rfl, ?_⟩
  · intro b arn
    dsimp [ComprehendBackend.describe_entity_recognizer]
    cases h : dictLookup arn b.recognizers <;> simp
  · intro b arn
    rw [stop_training_eq]
    cases h : dictLookup arn b.recognizers <;> simp
  · intro b arn h
    dsimp [applyOp]
    rw [stop_training_eq, h]

/-- Witness for C3: stop-training an ARN absent from an empty backend leaves
the state unchanged. -/
theorem notfound_iff_absent_witness :
    applyOp emptyBackend (Op.stopTraining "missing") = emptyBackend :=
  notfound_iff_absent.2.2.2 emptyBackend "missing" rfl

/-- C4: stop-training a registered recognizer never fails; it sets the
status to `STOP_REQUESTED` exactly when the current status is `TRAINING`
(changing nothing else of that record), otherwise leaves the state fully
unchanged; entries under other keys are never touched. -/
theorem stop_training_transition :
    (∀ (b : ComprehendBackend) (arn : String) (r : EntityRecognizer),
      dictLookup arn b.recognizers = some r →
      b.stop_training_entity_recognizer arn =
        Except.ok (if r.status = "TRAINING" then
          { b with recognizers :=
              dictInsert arn { r with status := "STOP_REQUESTED" } b.recognizers }
        else b)) ∧
    (∀ (b : ComprehendBackend) (arn : String) (r : EntityRecognizer)
        (b2 : ComprehendBackend) (k : String),
      dictLookup arn b.recognizers = some r →
      b.stop_training_entity_recognizer arn = Except.ok b2 → k ≠ arn →
      dictLookup k b2.recognizers = dictLookup k b.recognizers) := by
  have h1 : ∀ (b : ComprehendBackend) (arn : String) (r : EntityRecognizer),
      dictLookup arn b.recognizers = some r →
      b.stop_training_entity_recognizer arn =
        Except.ok (if r.status = "TRAINING" then
          { b with recognizers :=
              dictInsert arn { r with status := "STOP_REQUESTED" } b.recognizers }
        else b) := by
    intro b arn r h
    rw [stop_training_eq, h]
  refine ⟨h1, ?_⟩
  intro b arn r b2 k h hok hk
  rw [h1 b arn r h] at hok
  injection hok with hb2
  subst hb2
  by_cases hst : r.status = "TRAINING"
  · rw [if_pos hst]
    dsimp
    rw [dictLookup_dictInsert, if_neg (fun hc => hk hc.symm)]
  · rw [if_neg hst]

/-- Witness for C4: stop-training a concrete recognizer whose status is
`TRAINING` yields the `STOP_REQUESTED` update. -/
theorem stop_training_transition_witness :
    trainBackend.stop_training_entity_recognizer sampleArn =
      Except.ok
        { trainBackend with
          recognizers := dictInsert sampleArn
            { trainRecognizer with status := "STOP_REQUESTED" }
            trainBackend.recognizers } := by
  have h := stop_training_transition.1 trainBackend sampleArn trainRecognizer rfl
  rw [h, if_pos (show trainRecognizer.status = "TRAINING" from rfl)]

/-- C5: after a delete, describe of the same ARN fails with
`ResourceNotFound`; delete never fails, a second delete of the same ARN is a
no-op, and deleting an absent ARN leaves the backend unchanged. -/
theorem delete_describe_fails_and_idempotent :
    (∀ (b : ComprehendBackend) (arn : String),
      (b.delete_entity_recognizer arn).describe_entity_recognizer arn =
        Except.error ComprehendError.resourceNotFound) ∧
    (∀ (b : ComprehendBackend) (arn : String),
      (b.delete_entity_recognizer arn).delete_entity_recognizer arn =
        b.delete_entity_recognizer arn) ∧
    (∀ (b : ComprehendBackend) (arn : String),
      dictLookup arn b.recognizers = none →
      b.delete_entity_recognizer arn = b) := by
  refine ⟨?_, ?_, ?_⟩
  · intro b arn
    dsimp [ComprehendBackend.delete_entity_recognizer,
      ComprehendBackend.describe_entity_recognizer]
    rw [dictLookup_dictPop, if_pos rfl]
  · intro b arn
    dsimp [ComprehendBackend.delete_entity_recognizer]
    rw [dictPop_dictPop]
  · intro b arn h
    dsimp [ComprehendBackend.delete_entity_recognizer]
    rw [dictPop_of_lookup_none arn b.recognizers h]

/-- Witness for C5: deleting an ARN absent from an empty backend changes
nothing. -/
theorem delete_describe_fails_and_idempotent_witness :
    emptyBackend.delete_entity_recognizer "missing" = emptyBackend :=
  delete_describe_fails_and_idempotent.2.2 emptyBackend "missing" rfl

/-- C6: with a `RecognizerName` filter entry of value `x`, list returns
exactly the registry values whose `name` equals `x`; without that key it
returns all registry values; any other filter key is silently ignored. -/
theorem list_recognizers_filtering :
    (∀ (b : ComprehendBackend) (filt : List (String × String)) (x : String),
      dictLookup "RecognizerName" filt = some x →
      ∀ e : EntityRecognizer,
        e ∈ b.list_entity_recognizers filt ↔
          e ∈ dictValues b.recognizers ∧ e.name = x) ∧
    (∀ (b : ComprehendBackend) (filt : List (String × String)),
      dictLookup "RecognizerName" filt = none →
      b.list_entity_recognizers filt = dictValues b.recognizers) ∧
    (∀ (b : ComprehendBackend) (filt : List (String × String)) (k v : String),
      k ≠ "RecognizerName" →
      b.list_entity_recognizers ((k, v) :: filt) =
        b.list_entity_recognizers filt) := by
  refine ⟨?_, ?_, ?_⟩
  · intro b filt x h e
    dsimp [ComprehendBackend.list_entity_recognizers]
    rw [h]
    simp [List.mem_filter]
  · intro b filt h
    dsimp [ComprehendBackend.list_entity_recognizers]
    rw [h]
  · intro b filt k v h
    have hl : dictLookup "RecognizerName" ((k, v) :: filt) =
        dictLookup "RecognizerName" filt := by
      simp only [dictLookup]
      rw [if_neg h]
    dsimp [ComprehendBackend.list_entity_recognizers]
    rw [hl]

/-- Witness for C6: a filter holding both an ignored `Status` key and a
`RecognizerName` key, applied to the sample backend. -/
theorem list_recognizers_filtering_witness :
    (sampleRecognizer ∈ sampleBackend.list_entity_recognizers
        [("Status", "TRAINED"), ("RecognizerName", "rec1")] ↔
      sampleRecognizer ∈ dictValues sampleBackend.recognizers ∧
        sampleRecognizer.name = "rec1") :=
  list_recognizers_filtering.1 sampleBackend
    [("Status", "TRAINED"), ("RecognizerName", "rec1")] "rec1" rfl
    sampleRecognizer

/-- C7: a second create whose inputs yield the same ARN does not fail and
silently overwrites the entry: describe of that ARN afterwards returns the
recognizer built from the second call's inputs, and the registry holds
exactly one entry for that ARN (keys being unique, which every reachable
state satisfies). -/
theorem create_overwrites_same_arn :
    ∀ (b : ComprehendBackend)
      (n1 v1 d1 : String) (t1 : List Tag) (i1 l1 vol1 vpc1 mk1 mp1 : String)
      (n2 v2 d2 : String) (t2 : List Tag) (i2 l2 vol2 vpc2 mk2 mp2 : String),
      (b.recognizers.map Prod.fst).Nodup →
      (b.create_entity_recognizer n1 v1 d1 t1 i1 l1 vol1 vpc1 mk1 mp1).1 =
        ((b.create_entity_recognizer n1 v1 d1 t1 i1 l1 vol1 vpc1
            mk1 mp1).2.create_entity_recognizer
          n2 v2 d2 t2 i2 l2 vol2 vpc2 mk2 mp2).1 →
      ((b.create_entity_recognizer n1 v1 d1 t1 i1 l1 vol1 vpc1
          mk1 mp1).2.create_entity_recognizer
            n2 v2 d2 t2 i2 l2 vol2 vpc2 mk2 mp2).2.describe_entity_recognizer
        ((b.create_entity_recognizer n1 v1 d1 t1 i1 l1 vol1 vpc1
            mk1 mp1).2.create_entity_recognizer
          n2 v2 d2 t2 i2 l2 vol2 vpc2 mk2 mp2).1 =
        Except.ok (EntityRecognizer.make b.region_name b.account_id l2 i2 d2
          v2 n2 vol2 vpc2 mk2 mp2) ∧
      (((b.create_entity_recognizer n1 v1 d1 t1 i1 l1 vol1 vpc1
          mk1 mp1).2.create_entity_recognizer
            n2 v2 d2 t2 i2 l2 vol2 vpc2 mk2 mp2).2.recognizers.countP
        (fun p => p.1 ==
          ((b.create_entity_recognizer n1 v1 d1 t1 i1 l1 vol1 vpc1
              mk1 mp1).2.create_entity_recognizer
            n2 v2 d2 t2 i2 l2 vol2 vpc2 mk2 mp2).1)) = 1 := by
  intro b n1 v1 d1 t1 i1 l1 vol1 vpc1 mk1 mp1
    n2 v2 d2 t2 i2 l2 vol2 vpc2 mk2 mp2 hnd _
  constructor
  · dsimp [ComprehendBackend.create_entity_recognizer,
      ComprehendBackend.describe_entity_recognizer]
    rw [dictLookup_dictInsert, if_pos rfl]
  · dsimp [ComprehendBackend.create_entity_recognizer]
    exact countP_dictInsert_self _ _ _ (nodup_keys_dictInsert _ _ _ hnd)

/-- Witness for C7: two creates with the same name and version on an empty
backend. -/
theorem create_overwrites_same_arn_witness :
    ((emptyBackend.create_entity_recognizer "rec1" "v1" "role1" [] "i1" "en"
        "k1" "vp1" "m1" "p1").2.create_entity_recognizer
          "rec1" "v1" "role2" [] "i2" "fr" "k2" "vp2" "m2"
          "p2").2.describe_entity_recognizer
      ((emptyBackend.create_entity_recognizer "rec1" "v1" "role1" [] "i1" "en"
          "k1" "vp1" "m1" "p1").2.create_entity_recognizer
        "rec1" "v1" "role2" [] "i2" "fr" "k2" "vp2" "m2" "p2").1 =
      Except.ok (EntityRecognizer.make "us-east-1" "123456789012" "fr" "i2"
        "role2" "v1" "rec1" "k2" "vp2" "m2" "p2") ∧
    (((emptyBackend.create_entity_recognizer "rec1" "v1" "role1" [] "i1" "en"
        "k1" "vp1" "m1" "p1").2.create_entity_recognizer
          "rec1" "v1" "role2" [] "i2" "fr" "k2" "vp2" "m2"
          "p2").2.recognizers.countP
      (fun p => p.1 ==
        ((emptyBackend.create_entity_recognizer "rec1" "v1" "role1" [] "i1"
            "en" "k1" "vp1" "m1" "p1").2.create_entity_recognizer
          "rec1" "v1" "role2" [] "i2" "fr" "k2" "vp2" "m2" "p2").1)) = 1 :=
  create_overwrites_same_arn emptyBackend "rec1" "v1" "role1" [] "i1" "en"
    "k1" "vp1" "m1" "p1" "rec1" "v1" "role2" [] "i2" "fr" "k2" "vp2" "m2" "p2"
    (by simp [emptyBackend]) rfl

/-- C8: tags supplied at creation are what list-tags returns for the created
ARN immediately afterwards; untag removes exactly the tags whose key is
listed and leaves the other tags of that ARN, and all tags of other ARNs,
intact; both operations touch only the tagging collaborator, with no
existence check against the recognizer registry. -/
theorem tags_create_roundtrip_and_untag :
    (∀ (b : ComprehendBackend) (n v d : String) (t : List Tag)
        (i l vol vpc mk mp : String),
      ((b.create_entity_recognizer n v d t i l vol vpc mk
          mp).2).list_tags_for_resource
        ((b.create_entity_recognizer n v d t i l vol vpc mk mp).1) = t) ∧
    (∀ (b : ComprehendBackend) (a : String) (keys : List String),
      (b.untag_resource a keys).list_tags_for_resource a =
        (b.list_tags_for_resource a).filter
          (fun t => !(keys.contains t.Key))) ∧
    (∀ (b : ComprehendBackend) (a : String) (keys : List String) (a2 : String),
      a2 ≠ a →
      (b.untag_resource a keys).list_tags_for_resource a2 =
        b.list_tags_for_resource a2) ∧
    (∀ (b : ComprehendBackend) (a : String) (keys : List String),
      (b.untag_resource a keys).recognizers = b.recognizers) ∧
    (∀ (b : ComprehendBackend) (rs : List (String × EntityRecognizer))
        (a : String),
      (ComprehendBackend.mk b.region_name b.account_id rs
          b.tagger).list_tags_for_resource a =
        b.list_tags_for_resource a) := by
  refine ⟨?_, ?_, ?_, fun b a keys => rfl, fun b rs a => rfl⟩
  · intro b n v d t i l vol vpc mk mp
    dsimp [ComprehendBackend.create_entity_recognizer,
      ComprehendBackend.list_tags_for_resource,
      TaggingService.list_tags_for_resource, TaggingService.tag_resource]
    rw [dictLookup_dictInsert, if_pos rfl]
    rfl
  · intro b a keys
    dsimp [ComprehendBackend.untag_resource,
      ComprehendBackend.list_tags_for_resource,
      TaggingService.list_tags_for_resource,
      TaggingService.untag_resource_using_names]
    cases h : dictLookup a b.tagger.tags with
    | none => simp [h]
    | some cur => simp [h, dictLookup_dictInsert]
  · intro b a keys a2 h2
    dsimp [ComprehendBackend.untag_resource,
      ComprehendBackend.list_tags_for_resource,
      TaggingService.list_tags_for_resource,
      TaggingService.untag_resource_using_names]
    cases h : dictLookup a b.tagger.tags with
    | none => rfl
    | some cur =>
        dsimp
        rw [dictLookup_dictInsert, if_neg (fun hc => h2 hc.symm)]

/-- Witness for C8: untagging one ARN does not disturb the tags of another. -/
theorem tags_create_roundtrip_and_untag_witness :
    (emptyBackend.untag_resource "arnA" ["k"]).list_tags_for_resource "arnB" =
      emptyBackend.list_tags_for_resource "arnB" :=
  tags_create_roundtrip_and_untag.2.2.1 emptyBackend "arnA" ["k"] "arnB"
    (by decide)

/-- C9: creating with an empty version name yields an ARN without the
version segment (the code tests the string's truthiness, not its presence),
while the stored record still echoes back the empty version name. -/
theorem empty_version_name_arn :
    ∀ (b : ComprehendBackend) (n d : String) (t : List Tag)
      (i l vol vpc mk mp : String),
      (b.create_entity_recognizer n "" d t i l vol vpc mk mp).1 =
        "arn:aws:comprehend:" ++ b.region_name ++ ":" ++ b.account_id ++
          ":entity-recognizer/" ++ n ∧
      (((b.create_entity_recognizer n "" d t i l vol vpc mk
          mp).2).describe_entity_recognizer
        ((b.create_entity_recognizer n "" d t i l vol vpc mk mp).1)).map
        EntityRecognizer.version_name = Except.ok "" := by
  intro b n d t i l vol vpc mk mp
  constructor
  · dsimp [ComprehendBackend.create_entity_recognizer, EntityRecognizer.make]
  · dsimp [ComprehendBackend.create_entity_recognizer,
      ComprehendBackend.describe_entity_recognizer]
    rw [dictLookup_dictInsert, if_pos rfl]
    rfl

/-- C10: delete removes only the registry entry and never touches the tag
store: the tagger is unchanged and list-tags returns the same tags for every
ARN (including the deleted one) after a delete. -/
theorem delete_preserves_tags :
    ∀ (b : ComprehendBackend) (a : String),
      (b.delete_entity_recognizer a).tagger = b.tagger ∧
      ∀ a2 : String,
        (b.delete_entity_recognizer a).list_tags_for_resource a2 =
          b.list_tags_for_resource a2 :=
  fun _ _ => ⟨rfl, fun _ => rfl⟩

end MotoComprehend
